import Mathlib

/-!
Shallow embedding of the FreeIPA MCP server core: the `FreeIPAClient`
JSON-RPC pipeline (`src/unnamed/part_000`) and the `SSHManager`
multi-host command engine (`src/src/ssh-manager.ts`).

Asynchronous transport is modelled by explicit oracles: an HTTP exchange
is a value handed to the function under study, and an SSH execution is a
function from host and command to a result or a connection error.
JavaScript's `Map` is modelled as an association list with
insert-or-replace semantics (`setKey`), mirroring `Map.set`.
-/

/-- A JSON value, as carried in JSON-RPC envelopes. -/
inductive Value where
  | str (s : String)
  | num (n : Int)
  | bool (b : Bool)
  | arr (xs : List Value)
  | obj (fields : List (String × Value))
  | null
  deriving Repr

/-- JS `Map.set` / object key assignment: replace the binding in place when
the key is present, append it otherwise. -/
def setKey {α : Type} : List (String × α) → String → α → List (String × α)
  | [], k, v => [(k, v)]
  | (k', v') :: rest, k, v =>
    if k' = k then (k, v) :: rest else (k', v') :: setKey rest k v

/-- Key lookup in the association-list model of a JS `Map` / object. -/
def getKey {α : Type} : List (String × α) → String → Option α
  | [], _ => none
  | (k', v') :: rest, k => if k' = k then some v' else getKey rest k

/-- The keys of the association-list model, in insertion order. -/
def mapKeys {α : Type} (m : List (String × α)) : List String :=
  m.map Prod.fst

theorem getKey_setKey_self {α : Type} (m : List (String × α)) (k : String) (v : α) :
    getKey (setKey m k v) k = some v := by
  induction m with
  | nil => simp [setKey, getKey]
  | cons p rest ih =>
    obtain ⟨k', v'⟩ := p
    by_cases h : k' = k
    · simp [setKey, h, getKey]
    · simp [setKey, h, getKey, ih]

theorem getKey_setKey_ne {α : Type} (m : List (String × α)) (k k' : String) (v : α)
    (h : k' ≠ k) : getKey (setKey m k v) k' = getKey m k' := by
  induction m with
  | nil => simp [setKey, getKey, Ne.symm h]
  | cons p rest ih =>
    obtain ⟨k1, v1⟩ := p
    by_cases hp : k1 = k
    · subst hp
      simp [setKey, getKey, Ne.symm h]
    · simp [setKey, hp, getKey, ih]

theorem mem_mapKeys_setKey {α : Type} (m : List (String × α)) (k a : String) (v : α) :
    a ∈ mapKeys (setKey m k v) ↔ a = k ∨ a ∈ mapKeys m := by
  induction m with
  | nil => simp [setKey, mapKeys]
  | cons p rest ih =>
    obtain ⟨k1, v1⟩ := p
    by_cases hp : k1 = k
    · subst hp
      simp [setKey, mapKeys]
    · simp [setKey, hp, mapKeys] at ih ⊢
      rw [ih]
      tauto

theorem nodup_mapKeys_setKey {α : Type} (m : List (String × α)) (k : String) (v : α)
    (h : (mapKeys m).Nodup) : (mapKeys (setKey m k v)).Nodup := by
  induction m with
  | nil => simp [setKey, mapKeys]
  | cons p rest ih =>
    obtain ⟨k1, v1⟩ := p
    rw [show mapKeys ((k1, v1) :: rest) = k1 :: mapKeys rest from rfl, List.nodup_cons] at h
    by_cases hp : k1 = k
    · rw [show setKey ((k1, v1) :: rest) k v = (k, v) :: rest from by simp [setKey, hp]]
      rw [show mapKeys ((k, v) :: rest) = k :: mapKeys rest from rfl, List.nodup_cons]
      exact ⟨hp ▸ h.1, h.2⟩
    · rw [show setKey ((k1, v1) :: rest) k v = (k1, v1) :: setKey rest k v from by
        simp [setKey, hp]]
      rw [show mapKeys ((k1, v1) :: setKey rest k v) = k1 :: mapKeys (setKey rest k v) from rfl,
        List.nodup_cons]
      refine ⟨fun hmem => ?_, ih h.2⟩
      rcases (mem_mapKeys_setKey rest k k1 v).mp hmem with h1 | h1
      · exact hp h1
      · exact h.1 h1

theorem getKey_foldl_setKey {α : Type} (f : String → α) (hosts : List String) :
    ∀ (acc : List (String × α)) (h : String),
      getKey (hosts.foldl (fun m x => setKey m x (f x)) acc) h
        = if h ∈ hosts then some (f h) else getKey acc h := by
  induction hosts with
  | nil => intro acc h; simp
  | cons x rest ih =>
    intro acc h
    simp only [List.foldl_cons]
    rw [ih]
    by_cases hmem : h ∈ rest
    · simp [hmem]
    · by_cases hx : h = x
      · subst hx
        simp [hmem, getKey_setKey_self]
      · simp [hmem, hx, getKey_setKey_ne acc x h (f x) hx]

theorem mem_mapKeys_foldl_setKey {α : Type} (f : String → α) (hosts : List String) :
    ∀ (acc : List (String × α)) (h : String),
      h ∈ mapKeys (hosts.foldl (fun m x => setKey m x (f x)) acc)
        ↔ h ∈ hosts ∨ h ∈ mapKeys acc := by
  induction hosts with
  | nil => intro acc h; simp
  | cons x rest ih =>
    intro acc h
    simp only [List.foldl_cons]
    rw [ih, mem_mapKeys_setKey]
    simp [List.mem_cons]
    tauto

theorem nodup_mapKeys_foldl_setKey {α : Type} (f : String → α) (hosts : List String) :
    ∀ (acc : List (String × α)), (mapKeys acc).Nodup →
      (mapKeys (hosts.foldl (fun m x => setKey m x (f x)) acc)).Nodup := by
  induction hosts with
  | nil => intro acc h; simpa using h
  | cons x rest ih =>
    intro acc h
    simp only [List.foldl_cons]
    exact ih _ (nodup_mapKeys_setKey acc x (f x) h)

/-!
## SSHManager (src/src/ssh-manager.ts)

`executeCommand` is modelled by an oracle
`exec : String → String → Except SSHError SSHCommandResult` giving, for a
host and a command string, either the resolved result or the rejection.
-/

/-- Result of one remote command (`SSHCommandResult` in `types.ts`). -/
structure SSHCommandResult where
  stdout : String
  stderr : String
  exitCode : Int
  deriving Repr, DecidableEq

/-- The `SSHError` class of `types.ts` (message plus optional host and exit code). -/
structure SSHError where
  message : String
  host : Option String
  exitCode : Option Int
  deriving Repr, DecidableEq

/-- `SSHManager.executeOnMultipleHosts`: one `executeCommand` per host; a
rejected host is folded into the map as `{stdout: '', stderr: message,
exitCode: -1}`; a resolved host stores its real result. The JS `Map` is the
`setKey` association list. The function is total: the batch always
resolves. -/
def executeOnMultipleHosts (exec : String → String → Except SSHError SSHCommandResult)
    (hosts : List String) (command : String) : List (String × SSHCommandResult) :=
  hosts.foldl
    (fun results host =>
      setKey results host
        (match exec host command with
         | Except.ok result => result
         | Except.error e => ⟨"", e.message, -1⟩))
    []

theorem executeOnMultipleHosts_getKey
    (exec : String → String → Except SSHError SSHCommandResult)
    (hosts : List String) (command : String) (h : String) :
    getKey (executeOnMultipleHosts exec hosts command) h
      = if h ∈ hosts then
          some (match exec h command with
                | Except.ok result => result
                | Except.error e => ⟨"", e.message, -1⟩)
        else none := by
  exact getKey_foldl_setKey
    (fun x => match exec x command with
              | Except.ok result => result
              | Except.error e => ⟨"", e.message, -1⟩) hosts [] h

theorem executeOnMultipleHosts_mem_keys
    (exec : String → String → Except SSHError SSHCommandResult)
    (hosts : List String) (command : String) (h : String) :
    h ∈ mapKeys (executeOnMultipleHosts exec hosts command) ↔ h ∈ hosts := by
  have := mem_mapKeys_foldl_setKey
    (fun x => match exec x command with
              | Except.ok result => result
              | Except.error e => ⟨"", e.message, -1⟩) hosts [] h
  simpa [executeOnMultipleHosts, mapKeys] using this

theorem executeOnMultipleHosts_nodup_keys
    (exec : String → String → Except SSHError SSHCommandResult)
    (hosts : List String) (command : String) :
    (mapKeys (executeOnMultipleHosts exec hosts command)).Nodup := by
  exact nodup_mapKeys_foldl_setKey
    (fun x => match exec x command with
              | Except.ok result => result
              | Except.error e => ⟨"", e.message, -1⟩) hosts [] (by simp [mapKeys])

/-- C1: `executeOnMultipleHosts` resolves with a mapping that has exactly one
entry per requested hostname (keys are without duplicates and are exactly the
requested hostnames); a host whose `executeCommand` call succeeded maps to its
real result and a rejected host maps to `{stdout: '', stderr: message,
exitCode: -1}`.  Totality of the definition is the never-rejects half. -/
theorem executeOnMultipleHosts_complete
    (exec : String → String → Except SSHError SSHCommandResult)
    (hosts : List String) (command : String) :
    (mapKeys (executeOnMultipleHosts exec hosts command)).Nodup
    ∧ (∀ h, h ∈ mapKeys (executeOnMultipleHosts exec hosts command) ↔ h ∈ hosts)
    ∧ (∀ h ∈ hosts, ∀ r, exec h command = Except.ok r →
        getKey (executeOnMultipleHosts exec hosts command) h = some r)
    ∧ (∀ h ∈ hosts, ∀ e, exec h command = Except.error e →
        getKey (executeOnMultipleHosts exec hosts command) h
          = some ⟨"", e.message, -1⟩) := by
  refine ⟨executeOnMultipleHosts_nodup_keys exec hosts command,
    fun h => executeOnMultipleHosts_mem_keys exec hosts command h, ?_, ?_⟩
  · intro h hmem r hr
    rw [executeOnMultipleHosts_getKey, if_pos hmem, hr]
  · intro h hmem e he
    rw [executeOnMultipleHosts_getKey, if_pos hmem, he]

/-- Witness for C1 at a concrete batch: `h1` resolves with exit 0, `h2`
rejects with message `refused`; both appear, `h2` as the synthesized
`-1` record. -/
theorem executeOnMultipleHosts_complete_witness :
    ("h1" ∈ (["h1", "h2"] : List String))
    ∧ ("h2" ∈ (["h1", "h2"] : List String))
    ∧ getKey (executeOnMultipleHosts
        (fun host _ => if host = "h1" then Except.ok ⟨"done", "", 0⟩
                       else Except.error ⟨"refused", some "h2", none⟩)
        ["h1", "h2"] "echo test") "h1" = some ⟨"done", "", 0⟩
    ∧ getKey (executeOnMultipleHosts
        (fun host _ => if host = "h1" then Except.ok ⟨"done", "", 0⟩
                       else Except.error ⟨"refused", some "h2", none⟩)
        ["h1", "h2"] "echo test") "h2" = some ⟨"", "refused", -1⟩ := by
  refine ⟨by decide, by decide, ?_, ?_⟩
  · exact (executeOnMultipleHosts_complete
      (fun host _ => if host = "h1" then Except.ok ⟨"done", "", 0⟩
                     else Except.error ⟨"refused", some "h2", none⟩)
      ["h1", "h2"] "echo test").2.2.1 "h1" (by decide) ⟨"done", "", 0⟩ rfl
  · exact (executeOnMultipleHosts_complete
      (fun host _ => if host = "h1" then Except.ok ⟨"done", "", 0⟩
                     else Except.error ⟨"refused", some "h2", none⟩)
      ["h1", "h2"] "echo test").2.2.2 "h2" (by decide) ⟨"refused", some "h2", none⟩ rfl

/-- Character class of the allow-list regex in `validateShellSafe`
(`/^[a-zA-Z0-9._@-]+$/`). -/
def isShellSafeChar (c : Char) : Bool :=
  c.isAlpha || c.isDigit || c == '.' || c == '_' || c == '@' || c == '-'

/-- `validateShellSafe` from `ssh-manager.ts`: empty values are rejected as
required, values with a character outside the allow-list are rejected as
unsafe, anything else is returned unchanged. -/
def validateShellSafe (value : String) (fieldName : String) : Except SSHError String :=
  if value = "" then
    Except.error ⟨fieldName ++ " is required", none, none⟩
  else if !(value.toList.all isShellSafeChar) then
    Except.error ⟨fieldName ++ " contains unsafe characters: " ++ value, none, none⟩
  else
    Except.ok value

/-- Outcome of a single-host `SSHManager` operation: the result, plus the
command string handed to `executeCommand` (`none` when the operation threw
before opening any connection). -/
structure SSHCallOutcome where
  result : Except SSHError SSHCommandResult
  sent : Option String
  deriving Repr

/-- Outcome of a multi-host `SSHManager` operation, with the command string
handed to `executeOnMultipleHosts` (`none` when validation threw first). -/
structure SSHBatchOutcome where
  result : Except SSHError (List (String × SSHCommandResult))
  sent : Option String
  deriving Repr

/-- `SSHManager.invalidateUser`: validate, then run `sudo sss_cache -u <user>`. -/
def invalidateUser (exec : String → String → Except SSHError SSHCommandResult)
    (host username : String) : SSHCallOutcome :=
  match validateShellSafe username "username" with
  | Except.error e => ⟨Except.error e, none⟩
  | Except.ok u =>
    let command := "sudo sss_cache -u " ++ u
    ⟨exec host command, some command⟩

/-- `SSHManager.invalidateGroup`: validate, then run `sudo sss_cache -g <group>`. -/
def invalidateGroup (exec : String → String → Except SSHError SSHCommandResult)
    (host groupname : String) : SSHCallOutcome :=
  match validateShellSafe groupname "groupname" with
  | Except.error e => ⟨Except.error e, none⟩
  | Except.ok g =>
    let command := "sudo sss_cache -g " ++ g
    ⟨exec host command, some command⟩

/-- The command sequence of `updateSSSDTimeout` / `updateSSSDTimeoutMultiple`:
drop existing timeout lines, insert fresh ones after the domain section
marker (domain dots escaped for sed), restart the daemon.  Timeouts are
rationals (JS numbers); on the valid path both are integers and stringify as
their numerator. -/
def buildTimeoutCommands (sssdDomain : String) (entryCacheTimeout sudoTimeout : ℚ) : String :=
  let escapedDomain := sssdDomain.replace "." "\\."
  String.intercalate " && "
    ["sudo sed -i '/^entry_cache_timeout/d' /etc/sssd/sssd.conf",
     "sudo sed -i '/^entry_cache_sudo_timeout/d' /etc/sssd/sssd.conf",
     "sudo sed -i '/\\[domain\\/" ++ escapedDomain ++ "\\]/a entry_cache_timeout = "
       ++ toString entryCacheTimeout.num ++ "' /etc/sssd/sssd.conf",
     "sudo sed -i '/\\[domain\\/" ++ escapedDomain ++ "\\]/a entry_cache_sudo_timeout = "
       ++ toString sudoTimeout.num ++ "' /etc/sssd/sssd.conf",
     "sudo systemctl restart sssd"]

/-- `SSHManager.updateSSSDTimeout`: both timeouts must be non-negative
integers (`Number.isInteger` plus sign check) before any command is run. -/
def updateSSSDTimeout (sssdDomain : String)
    (exec : String → String → Except SSHError SSHCommandResult)
    (host : String) (entryCacheTimeout sudoTimeout : ℚ) : SSHCallOutcome :=
  if entryCacheTimeout.isInt = false ∨ entryCacheTimeout < 0 then
    ⟨Except.error ⟨"entryCacheTimeout must be a non-negative integer", none, none⟩, none⟩
  else if sudoTimeout.isInt = false ∨ sudoTimeout < 0 then
    ⟨Except.error ⟨"sudoTimeout must be a non-negative integer", none, none⟩, none⟩
  else
    let commands := buildTimeoutCommands sssdDomain entryCacheTimeout sudoTimeout
    ⟨exec host commands, some commands⟩

/-- `SSHManager.updateSSSDTimeoutMultiple`: same validation, then the batch. -/
def updateSSSDTimeoutMultiple (sssdDomain : String)
    (exec : String → String → Except SSHError SSHCommandResult)
    (hosts : List String) (entryCacheTimeout sudoTimeout : ℚ) : SSHBatchOutcome :=
  if entryCacheTimeout.isInt = false ∨ entryCacheTimeout < 0 then
    ⟨Except.error ⟨"entryCacheTimeout must be a non-negative integer", none, none⟩, none⟩
  else if sudoTimeout.isInt = false ∨ sudoTimeout < 0 then
    ⟨Except.error ⟨"sudoTimeout must be a non-negative integer", none, none⟩, none⟩
  else
    let commands := buildTimeoutCommands sssdDomain entryCacheTimeout sudoTimeout
    ⟨Except.ok (executeOnMultipleHosts exec hosts commands), some commands⟩

theorem validateShellSafe_ok_eq (s fieldName : String) (h1 : s ≠ "")
    (h2 : s.toList.all isShellSafeChar = true) :
    validateShellSafe s fieldName = Except.ok s := by
  unfold validateShellSafe
  rw [if_neg h1, h2]
  rfl

theorem validateShellSafe_ok_iff (s fieldName : String) :
    (∃ r, validateShellSafe s fieldName = Except.ok r)
      ↔ s ≠ "" ∧ s.toList.all isShellSafeChar = true := by
  constructor
  · rintro ⟨r, hr⟩
    by_cases h1 : s = ""
    · unfold validateShellSafe at hr
      rw [if_pos h1] at hr
      exact Except.noConfusion hr
    · cases h2 : s.toList.all isShellSafeChar with
      | false =>
        unfold validateShellSafe at hr
        rw [if_neg h1, h2] at hr
        exact Except.noConfusion hr
      | true => exact ⟨h1, rfl⟩
  · rintro ⟨h1, h2⟩
    exact ⟨s, validateShellSafe_ok_eq s fieldName h1 h2⟩

theorem validateShellSafe_error_of_invalid (s fieldName : String)
    (h : ¬(s ≠ "" ∧ s.toList.all isShellSafeChar = true)) :
    ∃ e, validateShellSafe s fieldName = Except.error e := by
  by_cases h1 : s = ""
  · refine ⟨⟨fieldName ++ " is required", none, none⟩, ?_⟩
    unfold validateShellSafe
    rw [if_pos h1]
  · have h2 : s.toList.all isShellSafeChar = false := by
      cases hb : s.toList.all isShellSafeChar with
      | false => rfl
      | true => exact absurd ⟨h1, hb⟩ h
    refine ⟨⟨fieldName ++ " contains unsafe characters: " ++ s, none, none⟩, ?_⟩
    unfold validateShellSafe
    rw [if_neg h1, h2]
    rfl

/-- C8: the identifier validation used by `invalidateUser` and
`invalidateGroup` accepts exactly the non-empty strings whose characters are
letters, digits, dot, hyphen, underscore or at-sign; on a valid identifier
the command is spliced and executed, and on an invalid identifier both
operations fail with no command ever handed to the connection layer. -/
theorem invalidate_identifier_validation
    (exec : String → String → Except SSHError SSHCommandResult)
    (host s : String) :
    ((∃ r, validateShellSafe s "username" = Except.ok r)
        ↔ s ≠ "" ∧ ∀ c ∈ s.toList,
            (c.isAlpha || c.isDigit || c == '.' || c == '-' || c == '_' || c == '@') = true)
    ∧ ((s ≠ "" ∧ ∀ c ∈ s.toList, isShellSafeChar c = true) →
        invalidateUser exec host s
          = ⟨exec host ("sudo sss_cache -u " ++ s), some ("sudo sss_cache -u " ++ s)⟩
        ∧ invalidateGroup exec host s
          = ⟨exec host ("sudo sss_cache -g " ++ s), some ("sudo sss_cache -g " ++ s)⟩)
    ∧ (¬(s ≠ "" ∧ ∀ c ∈ s.toList, isShellSafeChar c = true) →
        ((invalidateUser exec host s).sent = none
          ∧ ∃ e, (invalidateUser exec host s).result = Except.error e)
        ∧ ((invalidateGroup exec host s).sent = none
          ∧ ∃ e, (invalidateGroup exec host s).result = Except.error e)) := by
  have hall : ∀ c ∈ s.toList,
      (c.isAlpha || c.isDigit || c == '.' || c == '-' || c == '_' || c == '@') = true
      ↔ isShellSafeChar c = true := by
    intro c _
    constructor
    · intro h
      simp [isShellSafeChar] at h ⊢
      tauto
    · intro h
      simp [isShellSafeChar] at h ⊢
      tauto
  refine ⟨?_, ?_, ?_⟩
  · rw [validateShellSafe_ok_iff, List.all_eq_true]
    constructor
    · rintro ⟨h1, h2⟩
      exact ⟨h1, fun c hc => (hall c hc).mpr (h2 c hc)⟩
    · rintro ⟨h1, h2⟩
      exact ⟨h1, fun c hc => (hall c hc).mp (h2 c hc)⟩
  · rintro ⟨h1, h2⟩
    have hok : validateShellSafe s "username" = Except.ok s :=
      validateShellSafe_ok_eq s "username" h1 (List.all_eq_true.mpr h2)
    have hok' : validateShellSafe s "groupname" = Except.ok s :=
      validateShellSafe_ok_eq s "groupname" h1 (List.all_eq_true.mpr h2)
    constructor
    · simp [invalidateUser, hok]
    · simp [invalidateGroup, hok']
  · intro h
    have h' : ¬(s ≠ "" ∧ s.toList.all isShellSafeChar = true) := by
      rw [List.all_eq_true]
      exact h
    obtain ⟨e, he⟩ := validateShellSafe_error_of_invalid s "username" h'
    obtain ⟨e', he'⟩ := validateShellSafe_error_of_invalid s "groupname" h'
    exact ⟨by simp [invalidateUser, he], by simp [invalidateGroup, he']⟩

/-- Witness for C8: `alice.smith@EXAMPLE.COM` is accepted and spliced into the
cache-invalidation command; `alice; rm -rf /` is rejected with no command
sent. -/
theorem invalidate_identifier_validation_witness :
    ("alice.smith@EXAMPLE.COM" ≠ ""
      ∧ ∀ c ∈ "alice.smith@EXAMPLE.COM".toList, isShellSafeChar c = true)
    ∧ ¬("alice; rm -rf /" ≠ ""
      ∧ ∀ c ∈ "alice; rm -rf /".toList, isShellSafeChar c = true)
    ∧ invalidateUser (fun _ _ => Except.ok ⟨"", "", 0⟩) "host1" "alice.smith@EXAMPLE.COM"
        = ⟨(fun _ _ => Except.ok ⟨"", "", 0⟩ : String → String → Except SSHError SSHCommandResult)
             "host1" ("sudo sss_cache -u " ++ "alice.smith@EXAMPLE.COM"),
           some ("sudo sss_cache -u " ++ "alice.smith@EXAMPLE.COM")⟩
    ∧ (invalidateUser (fun _ _ => Except.ok ⟨"", "", 0⟩) "host1" "alice; rm -rf /").sent
        = none :=
  ⟨by decide, by decide,
   ((invalidate_identifier_validation (fun _ _ => Except.ok ⟨"", "", 0⟩) "host1"
       "alice.smith@EXAMPLE.COM").2.1 ⟨by decide, by decide⟩).1,
   (((invalidate_identifier_validation (fun _ _ => Except.ok ⟨"", "", 0⟩) "host1"
       "alice; rm -rf /").2.2 (by decide)).1).1⟩

/-- C7: a timeout value that is not a non-negative integer makes both
`updateSSSDTimeout` and `updateSSSDTimeoutMultiple` fail with a validation
error before any command is handed to the connection layer. -/
theorem updateSSSDTimeout_validation (sssdDomain : String)
    (exec : String → String → Except SSHError SSHCommandResult)
    (host : String) (hosts : List String) (entryCacheTimeout sudoTimeout : ℚ)
    (h : entryCacheTimeout.isInt = false ∨ entryCacheTimeout < 0
       ∨ sudoTimeout.isInt = false ∨ sudoTimeout < 0) :
    ((updateSSSDTimeout sssdDomain exec host entryCacheTimeout sudoTimeout).sent = none
      ∧ ∃ m, (m = "entryCacheTimeout must be a non-negative integer"
              ∨ m = "sudoTimeout must be a non-negative integer")
          ∧ (updateSSSDTimeout sssdDomain exec host entryCacheTimeout sudoTimeout).result
              = Except.error ⟨m, none, none⟩)
    ∧ ((updateSSSDTimeoutMultiple sssdDomain exec hosts entryCacheTimeout sudoTimeout).sent
          = none
      ∧ ∃ m, (m = "entryCacheTimeout must be a non-negative integer"
              ∨ m = "sudoTimeout must be a non-negative integer")
          ∧ (updateSSSDTimeoutMultiple sssdDomain exec hosts entryCacheTimeout sudoTimeout).result
              = Except.error ⟨m, none, none⟩) := by
  by_cases he : entryCacheTimeout.isInt = false ∨ entryCacheTimeout < 0
  · refine ⟨⟨?_, ?_⟩, ⟨?_, ?_⟩⟩
    · simp [updateSSSDTimeout, he]
    · exact ⟨_, Or.inl rfl, by simp [updateSSSDTimeout, he]⟩
    · simp [updateSSSDTimeoutMultiple, he]
    · exact ⟨_, Or.inl rfl, by simp [updateSSSDTimeoutMultiple, he]⟩
  · have hs : sudoTimeout.isInt = false ∨ sudoTimeout < 0 := by tauto
    refine ⟨⟨?_, ?_⟩, ⟨?_, ?_⟩⟩
    · simp [updateSSSDTimeout, he, hs]
    · exact ⟨_, Or.inr rfl, by simp [updateSSSDTimeout, he, hs]⟩
    · simp [updateSSSDTimeoutMultiple, he, hs]
    · exact ⟨_, Or.inr rfl, by simp [updateSSSDTimeoutMultiple, he, hs]⟩

/-- Witness for C7 at `entryCacheTimeout = -1`: both entry points return the
validation error and send nothing. -/
theorem updateSSSDTimeout_validation_witness :
    (((-1 : ℚ).isInt = false ∨ (-1 : ℚ) < 0
        ∨ (300 : ℚ).isInt = false ∨ (300 : ℚ) < 0)
    ∧ ((updateSSSDTimeout "example.com" (fun _ _ => Except.ok ⟨"", "", 0⟩) "host1"
          (-1) 300).sent = none
      ∧ ∃ m, (m = "entryCacheTimeout must be a non-negative integer"
              ∨ m = "sudoTimeout must be a non-negative integer")
          ∧ (updateSSSDTimeout "example.com" (fun _ _ => Except.ok ⟨"", "", 0⟩) "host1"
              (-1) 300).result = Except.error ⟨m, none, none⟩)
    ∧ ((updateSSSDTimeoutMultiple "example.com" (fun _ _ => Except.ok ⟨"", "", 0⟩) ["host1"]
          (-1) 300).sent = none
      ∧ ∃ m, (m = "entryCacheTimeout must be a non-negative integer"
              ∨ m = "sudoTimeout must be a non-negative integer")
          ∧ (updateSSSDTimeoutMultiple "example.com" (fun _ _ => Except.ok ⟨"", "", 0⟩) ["host1"]
              (-1) 300).result = Except.error ⟨m, none, none⟩)) :=
  ⟨by decide,
   updateSSSDTimeout_validation "example.com" (fun _ _ => Except.ok ⟨"", "", 0⟩) "host1"
     ["host1"] (-1) 300 (by decide)⟩

/-!
## FreeIPAClient (src/unnamed/part_000)

The axios transport is modelled by handing each call the outcome of its one
HTTP exchange: either a resolved response (any 2xx status resolves under
axios's default `validateStatus`, so the status is carried explicitly) or a
rejection that may still carry a JSON body (`error.response.data`).
-/

/-- The fault object of a FreeIPA JSON-RPC response (`error` field). -/
structure Fault where
  code : Int
  message : String
  name : String
  deriving Repr, DecidableEq

/-- The outer `result` object of a FreeIPA response; the payload read by the
client is its inner `result` field. -/
structure OuterResult where
  result : Value
  deriving Repr

/-- A FreeIPA JSON-RPC response body: optional doubly-nested result,
optional fault. -/
structure ResponseBody where
  result : Option OuterResult
  error : Option Fault
  deriving Repr

/-- Outcome of the HTTP POST for one API call. -/
inductive HttpResult where
  | resolved (status : Nat) (body : ResponseBody)
  | rejected (message : String) (body : Option ResponseBody)
  deriving Repr

/-- The `FreeIPAError` class of `types.ts`: message, optional numeric code,
and a `name` that falls back to `FreeIPAError` when no fault name is given. -/
structure FreeIPAError where
  message : String
  code : Option Int
  errName : String
  deriving Repr, DecidableEq

/-- JS `a || b` on an optional string (empty string is falsy). -/
def jsStringOr (a : Option String) (b : String) : String :=
  match a with
  | some s => if s = "" then b else s
  | none => b

/-- `new FreeIPAError(message, code?, errorName?)`. -/
def mkFreeIPAError (message : String) (code : Option Int) (errorName : Option String) :
    FreeIPAError :=
  ⟨message, code, jsStringOr errorName "FreeIPAError"⟩

/-- The mutable session fields of one `FreeIPAClient` instance. -/
structure ClientState where
  authenticated : Bool
  cookies : String
  requestId : Nat
  deriving Repr, DecidableEq

/-- State of a freshly constructed client. -/
def ClientState.init : ClientState := ⟨false, "", 0⟩

/-- A JSON-RPC request envelope (`FreeIPARequest` in `types.ts`). -/
structure FreeIPARequest where
  method : String
  params : Value
  id : Nat
  deriving Repr

/-- The two-slot parameter array of `apiCall`: `params.length > 0 ?
[params, options] : [[], options]`. -/
def buildApiParams (params : List Value) (options : List (String × Value)) : Value :=
  if params.length > 0 then Value.arr [Value.arr params, Value.obj options]
  else Value.arr [Value.arr [], Value.obj options]

/-- Everything one `apiCall` invocation produced: its return or error, the
session state afterwards, and the envelope sent (`none` when the call threw
before posting anything). -/
structure ApiCallOutcome where
  result : Except FreeIPAError (Option Value)
  state : ClientState
  sent : Option FreeIPARequest

/-- `FreeIPAClient.apiCall`.  Not authenticated: throw without sending.
Otherwise: assign `++requestId`, build the envelope, post it, and map the
exchange outcome — non-200 resolved status throws an HTTP error, an in-band
fault throws an error carrying the fault's code/message/name, otherwise the
doubly-nested `result.result` is returned (`none` when the outer result is
absent, mirroring `?.`).  A rejection whose body carries a fault is unwrapped
the same way; any other rejection becomes a network error. -/
def apiCall (st : ClientState) (method : String) (params : List Value)
    (options : List (String × Value)) (resp : HttpResult) : ApiCallOutcome :=
  if st.authenticated = false then
    ⟨Except.error (mkFreeIPAError "Not authenticated. Call authenticate() first." none none),
     st, none⟩
  else
    let newId := st.requestId + 1
    let st' : ClientState := ⟨st.authenticated, st.cookies, newId⟩
    let payload : FreeIPARequest := ⟨method, buildApiParams params options, newId⟩
    match resp with
    | HttpResult.resolved status body =>
      if status ≠ 200 then
        ⟨Except.error (mkFreeIPAError ("API call failed: HTTP " ++ toString status) none none),
         st', some payload⟩
      else
        match body.error with
        | some f =>
          ⟨Except.error (mkFreeIPAError f.message (some f.code) (some f.name)),
           st', some payload⟩
        | none =>
          ⟨Except.ok (body.result.map OuterResult.result), st', some payload⟩
    | HttpResult.rejected msg errBody =>
      match errBody with
      | some b =>
        match b.error with
        | some f =>
          ⟨Except.error (mkFreeIPAError f.message (some f.code) (some f.name)),
           st', some payload⟩
        | none =>
          ⟨Except.error (mkFreeIPAError ("Network error during API call: " ++ msg) none none),
           st', some payload⟩
      | none =>
        ⟨Except.error (mkFreeIPAError ("Network error during API call: " ++ msg) none none),
         st', some payload⟩

/-- Outcome of the login HTTP POST (`session/login_password`). -/
inductive AuthHttpResult where
  | resolved (status : Nat) (setCookies : Option (List String))
  | rejected (message : String)
  deriving Repr

/-- `cookie.split(';')[0]`: the text of a `Set-Cookie` header before its
first semicolon, i.e. the `name=value` pair with the attributes stripped. -/
def cookieNameValue (cookie : String) : String :=
  String.mk (cookie.toList.takeWhile (fun ch => ch != ';'))

/-- `FreeIPAClient.authenticate`.  On HTTP 200: when the response carries
`Set-Cookie` headers, each is cut at its first `;` and the pieces are joined
with `; ` into the stored cookie string (absent headers leave the stored
cookie untouched); the authenticated flag is set.  Any other status throws an
authentication error; a transport rejection throws a network error. -/
def authenticate (st : ClientState) (resp : AuthHttpResult) :
    Except FreeIPAError Bool × ClientState :=
  match resp with
  | AuthHttpResult.resolved status setCookies =>
    if status = 200 then
      let cookies' := match setCookies with
        | some cs => String.intercalate "; " (cs.map cookieNameValue)
        | none => st.cookies
      (Except.ok true, ⟨true, cookies', st.requestId⟩)
    else
      (Except.error (mkFreeIPAError ("Authentication failed: HTTP " ++ toString status)
        none none), st)
  | AuthHttpResult.rejected msg =>
    (Except.error (mkFreeIPAError ("Network error during authentication: " ++ msg) none none),
     st)

theorem buildApiParams_eq (params : List Value) (options : List (String × Value)) :
    buildApiParams params options = Value.arr [Value.arr params, Value.obj options] := by
  unfold buildApiParams
  by_cases hp : params.length > 0
  · rw [if_pos hp]
  · rw [if_neg hp]
    have h0 : params.length = 0 := by omega
    rw [List.eq_nil_of_length_eq_zero h0]

theorem apiCall_not_auth (st : ClientState) (m : String) (p : List Value)
    (o : List (String × Value)) (r : HttpResult) (h : st.authenticated = false) :
    apiCall st m p o r
      = ⟨Except.error (mkFreeIPAError "Not authenticated. Call authenticate() first." none none),
         st, none⟩ := by
  unfold apiCall
  rw [h]
  rw [if_pos rfl]

theorem apiCall_auth_sent_state (st : ClientState) (m : String) (p : List Value)
    (o : List (String × Value)) (r : HttpResult) (h : st.authenticated = true) :
    (apiCall st m p o r).state = ⟨st.authenticated, st.cookies, st.requestId + 1⟩
    ∧ (apiCall st m p o r).sent = some ⟨m, buildApiParams p o, st.requestId + 1⟩ := by
  unfold apiCall
  rw [h]
  cases r with
  | resolved status body =>
    by_cases hs : status ≠ 200
    · simp [hs, h]
    · cases hb : body.error <;> simp [hs, h, hb]
  | rejected msg errBody =>
    cases errBody with
    | none => simp [h]
    | some b => cases hb : b.error <;> simp [h, hb]

/-- C10: `apiCall` never changes the session cookie or the authenticated
flag; when authenticated it bumps the request-id counter by exactly one
(also on calls that fail), and when not authenticated it leaves the whole
session state untouched. -/
theorem apiCall_session_frame (st : ClientState) (m : String) (p : List Value)
    (o : List (String × Value)) (r : HttpResult) :
    (apiCall st m p o r).state.cookies = st.cookies
    ∧ (apiCall st m p o r).state.authenticated = st.authenticated
    ∧ (apiCall st m p o r).state
        = if st.authenticated then ⟨st.authenticated, st.cookies, st.requestId + 1⟩ else st := by
  cases hb : st.authenticated with
  | false =>
    rw [apiCall_not_auth st m p o r hb]
    simp [hb]
  | true =>
    rw [(apiCall_auth_sent_state st m p o r hb).1]
    simp [hb]

/-- C4: `apiCall` before any successful `authenticate` fails with the
not-authenticated error, sends no request and leaves the state unchanged. -/
theorem apiCall_requires_authentication (st : ClientState) (m : String) (p : List Value)
    (o : List (String × Value)) (r : HttpResult) (h : st.authenticated = false) :
    (apiCall st m p o r).result
        = Except.error (mkFreeIPAError "Not authenticated. Call authenticate() first." none none)
    ∧ (apiCall st m p o r).sent = none
    ∧ (apiCall st m p o r).state = st := by
  rw [apiCall_not_auth st m p o r h]
  exact ⟨rfl, rfl, rfl⟩

/-- Witness for C4 at the freshly constructed client state. -/
theorem apiCall_requires_authentication_witness :
    ClientState.init.authenticated = false
    ∧ ((apiCall ClientState.init "user_find" [Value.str ""] []
          (HttpResult.resolved 200 ⟨none, none⟩)).result
        = Except.error (mkFreeIPAError "Not authenticated. Call authenticate() first." none none)
      ∧ (apiCall ClientState.init "user_find" [Value.str ""] []
          (HttpResult.resolved 200 ⟨none, none⟩)).sent = none
      ∧ (apiCall ClientState.init "user_find" [Value.str ""] []
          (HttpResult.resolved 200 ⟨none, none⟩)).state = ClientState.init) :=
  ⟨rfl, apiCall_requires_authentication ClientState.init "user_find" [Value.str ""] []
    (HttpResult.resolved 200 ⟨none, none⟩) rfl⟩

/-- C2: every envelope sent by `apiCall` carries a params field that is the
two-element array `[positionalArgs, namedOptions]` — `[[], namedOptions]`
when the positional list is empty, never collapsed to one slot. -/
theorem apiCall_wire_params_arity (st : ClientState) (m : String) (p : List Value)
    (o : List (String × Value)) (r : HttpResult) (h : st.authenticated = true) :
    ∃ req, (apiCall st m p o r).sent = some req
      ∧ req.params = Value.arr [Value.arr p, Value.obj o] := by
  refine ⟨⟨m, buildApiParams p o, st.requestId + 1⟩,
    (apiCall_auth_sent_state st m p o r h).2, ?_⟩
  exact buildApiParams_eq p o

/-- Witness for C2 at a call with an empty positional-argument list. -/
theorem apiCall_wire_params_arity_witness :
    (ClientState.mk true "ipa_session=x" 0).authenticated = true
    ∧ ∃ req, (apiCall ⟨true, "ipa_session=x", 0⟩ "cert_find" [] [("sizelimit", Value.num 10)]
          (HttpResult.resolved 200 ⟨none, none⟩)).sent = some req
        ∧ req.params = Value.arr [Value.arr [], Value.obj [("sizelimit", Value.num 10)]] :=
  ⟨rfl, apiCall_wire_params_arity ⟨true, "ipa_session=x", 0⟩ "cert_find" []
    [("sizelimit", Value.num 10)] (HttpResult.resolved 200 ⟨none, none⟩) rfl⟩

/-- C5 (amended): on a resolved 200 response, a fault object in the body
makes `apiCall` fail with an error built from exactly the fault's code,
message and name, and no success payload is produced; with no fault the
doubly-nested `result.result` is returned.  A rejected exchange whose body
carries a fault is unwrapped the same way.  (A resolved 2xx status other
than 200 instead fails with the HTTP-status error — see the
counterexample.) -/
theorem apiCall_fault_dichotomy (st : ClientState) (m : String) (p : List Value)
    (o : List (String × Value)) (body : ResponseBody) (h : st.authenticated = true) :
    (∀ f, body.error = some f →
      (apiCall st m p o (HttpResult.resolved 200 body)).result
        = Except.error (mkFreeIPAError f.message (some f.code) (some f.name)))
    ∧ (body.error = none →
      (apiCall st m p o (HttpResult.resolved 200 body)).result
        = Except.ok (body.result.map OuterResult.result))
    ∧ (∀ msg b f, b.error = some f →
      (apiCall st m p o (HttpResult.rejected msg (some b))).result
        = Except.error (mkFreeIPAError f.message (some f.code) (some f.name))) := by
  refine ⟨?_, ?_, ?_⟩
  · intro f hf
    simp [apiCall, h, hf]
  · intro hf
    simp [apiCall, h, hf]
  · intro msg b f hf
    simp [apiCall, h, hf]

/-- Witness for C5 at the `DuplicateEntry` fault of the claim: code `4001`,
name `DuplicateEntry`, message `already exists`. -/
theorem apiCall_fault_dichotomy_witness :
    (ClientState.mk true "c=1" 0).authenticated = true
    ∧ (ResponseBody.mk none (some ⟨4001, "already exists", "DuplicateEntry"⟩)).error
        = some ⟨4001, "already exists", "DuplicateEntry"⟩
    ∧ (apiCall ⟨true, "c=1", 0⟩ "user_add" [Value.str "alice"] []
        (HttpResult.resolved 200 ⟨none, some ⟨4001, "already exists", "DuplicateEntry"⟩⟩)).result
        = Except.error ⟨"already exists", some 4001, "DuplicateEntry"⟩ :=
  ⟨rfl, rfl,
   (apiCall_fault_dichotomy ⟨true, "c=1", 0⟩ "user_add" [Value.str "alice"] []
      ⟨none, some ⟨4001, "already exists", "DuplicateEntry"⟩⟩ rfl).1
     ⟨4001, "already exists", "DuplicateEntry"⟩ rfl⟩

/-- Counterexample to C5 as stated: a response resolved with status 201
whose body carries the `DuplicateEntry` fault fails with the generic
HTTP-status error — the status check runs first, so the produced error does
not carry the fault's code. -/
theorem apiCall_fault_masked_on_non200 :
    (apiCall ⟨true, "c=1", 0⟩ "user_add" [Value.str "alice"] []
        (HttpResult.resolved 201 ⟨none, some ⟨4001, "already exists", "DuplicateEntry"⟩⟩)).result
      = Except.error ⟨"API call failed: HTTP 201", none, "FreeIPAError"⟩
    ∧ ∀ e, (apiCall ⟨true, "c=1", 0⟩ "user_add" [Value.str "alice"] []
        (HttpResult.resolved 201 ⟨none, some ⟨4001, "already exists", "DuplicateEntry"⟩⟩)).result
          = Except.error e → e.code ≠ some 4001 := by
  have h1 : (apiCall ⟨true, "c=1", 0⟩ "user_add" [Value.str "alice"] []
      (HttpResult.resolved 201 ⟨none, some ⟨4001, "already exists", "DuplicateEntry"⟩⟩)).result
      = Except.error ⟨"API call failed: HTTP 201", none, "FreeIPAError"⟩ := rfl
  refine ⟨h1, ?_⟩
  intro e he
  rw [h1, Except.error.injEq] at he
  rw [← he]
  decide

/-- One `apiCall` invocation as consumed sequentially: its inputs plus the
outcome of its HTTP exchange. -/
structure CallInput where
  method : String
  params : List Value
  options : List (String × Value)
  resp : HttpResult

/-- Run a sequence of `apiCall` invocations against one client instance,
collecting every envelope that was actually posted. -/
def runCalls : ClientState → List CallInput → List FreeIPARequest × ClientState
  | st, [] => ([], st)
  | st, c :: rest =>
    let r := apiCall st c.method c.params c.options c.resp
    let next := runCalls r.state rest
    (r.sent.toList ++ next.1, next.2)

theorem runCalls_ids (calls : List CallInput) : ∀ st : ClientState,
    st.authenticated = true →
    (runCalls st calls).1.map FreeIPARequest.id
        = List.range' (st.requestId + 1) calls.length
    ∧ (runCalls st calls).2
        = ⟨st.authenticated, st.cookies, st.requestId + calls.length⟩ := by
  induction calls with
  | nil =>
    intro st h
    exact ⟨rfl, rfl⟩
  | cons c rest ih =>
    intro st h
    obtain ⟨hstate, hsent⟩ := apiCall_auth_sent_state st c.method c.params c.options c.resp h
    have hauth' : (apiCall st c.method c.params c.options c.resp).state.authenticated = true := by
      rw [hstate]
      exact h
    obtain ⟨hids, hst⟩ := ih (apiCall st c.method c.params c.options c.resp).state hauth'
    rw [hstate] at hids hst
    constructor
    · show (((apiCall st c.method c.params c.options c.resp).sent.toList
          ++ (runCalls (apiCall st c.method c.params c.options c.resp).state rest).1).map
            FreeIPARequest.id)
        = List.range' (st.requestId + 1) (rest.length + 1)
      rw [hstate, List.map_append, hids, hsent]
      rw [List.range'_succ (st.requestId + 1) rest.length 1]
      rfl
    · show (runCalls (apiCall st c.method c.params c.options c.resp).state rest).2
        = ⟨st.authenticated, st.cookies, st.requestId + (rest.length + 1)⟩
      rw [hstate, hst, h]
      congr 1
      show st.requestId + 1 + rest.length = st.requestId + (rest.length + 1)
      omega

theorem chainLt_range' (n : Nat) : ∀ s : Nat, List.Chain' (· < ·) (List.range' s n) := by
  induction n with
  | zero => intro s; simp
  | succ k ih =>
    intro s
    rw [List.range'_succ s k 1]
    cases k with
    | zero => simp
    | succ j =>
      rw [List.range'_succ (s + 1) j 1, List.chain'_cons]
      refine ⟨by omega, ?_⟩
      rw [← List.range'_succ (s + 1) j 1]
      exact ih (s + 1)

/-- C6: over the lifetime of one authenticated client instance, the request
ids assigned by successive `apiCall` invocations are strictly increasing,
the first assigned id is `1`, and `0` is never assigned. -/
theorem apiCall_request_ids (st : ClientState) (calls : List CallInput)
    (hauth : st.authenticated = true) (hid : st.requestId = 0) :
    List.Chain' (· < ·) ((runCalls st calls).1.map FreeIPARequest.id)
    ∧ (calls ≠ [] → ((runCalls st calls).1.map FreeIPARequest.id).head? = some 1)
    ∧ 0 ∉ ((runCalls st calls).1.map FreeIPARequest.id) := by
  have hids := (runCalls_ids calls st hauth).1
  rw [hids, hid]
  refine ⟨chainLt_range' calls.length (0 + 1), ?_, ?_⟩
  · intro hne
    cases calls with
    | nil => exact absurd rfl hne
    | cons c rest =>
      rw [show (c :: rest).length = rest.length + 1 from rfl,
        List.range'_succ (0 + 1) rest.length 1]
      rfl
  · intro hmem
    rw [List.mem_range'] at hmem
    omega

/-- Witness for C6: two calls from a fresh authenticated session are
assigned ids `1` then `2`. -/
theorem apiCall_request_ids_witness :
    (ClientState.mk true "s=1" 0).authenticated = true
    ∧ (ClientState.mk true "s=1" 0).requestId = 0
    ∧ (List.Chain' (· < ·)
        ((runCalls ⟨true, "s=1", 0⟩
          [⟨"ping", [], [], HttpResult.resolved 200 ⟨some ⟨Value.null⟩, none⟩⟩,
           ⟨"env", [], [], HttpResult.resolved 200 ⟨none, none⟩⟩]).1.map FreeIPARequest.id)
      ∧ (([⟨"ping", [], [], HttpResult.resolved 200 ⟨some ⟨Value.null⟩, none⟩⟩,
           ⟨"env", [], [], HttpResult.resolved 200 ⟨none, none⟩⟩] : List CallInput) ≠ [] →
          ((runCalls ⟨true, "s=1", 0⟩
            [⟨"ping", [], [], HttpResult.resolved 200 ⟨some ⟨Value.null⟩, none⟩⟩,
             ⟨"env", [], [], HttpResult.resolved 200 ⟨none, none⟩⟩]).1.map
              FreeIPARequest.id).head? = some 1)
      ∧ 0 ∉ ((runCalls ⟨true, "s=1", 0⟩
          [⟨"ping", [], [], HttpResult.resolved 200 ⟨some ⟨Value.null⟩, none⟩⟩,
           ⟨"env", [], [], HttpResult.resolved 200 ⟨none, none⟩⟩]).1.map FreeIPARequest.id)) :=
  ⟨rfl, rfl,
   apiCall_request_ids ⟨true, "s=1", 0⟩
     [⟨"ping", [], [], HttpResult.resolved 200 ⟨some ⟨Value.null⟩, none⟩⟩,
      ⟨"env", [], [], HttpResult.resolved 200 ⟨none, none⟩⟩] rfl rfl⟩

/-- The named-option mapping built by `FreeIPAClient.groupAddMember`: spread
the caller's options, then assign `user` when a users list was supplied and
`group` when a groups list was supplied. -/
def groupAddMemberParams (users groups : Option (List String))
    (options : List (String × Value)) : List (String × Value) :=
  let params := options
  let params := match users with
    | some us => setKey params "user" (Value.arr (us.map Value.str))
    | none => params
  match groups with
  | some gs => setKey params "group" (Value.arr (gs.map Value.str))
  | none => params

/-- `FreeIPAClient.groupAddMember` routed through `apiCall`: `cn`
positionally, the conditional member mapping as named options. -/
def groupAddMember (st : ClientState) (cn : String) (users groups : Option (List String))
    (options : List (String × Value)) (resp : HttpResult) : ApiCallOutcome :=
  apiCall st "group_add_member" [Value.str cn] (groupAddMemberParams users groups options) resp

/-- Counterexample to C9 as stated: with a users list supplied and the
groups argument omitted, an extra-options bag that itself carries a
`group` key survives the spread, so the wire mapping does contain a
`group` key. -/
theorem groupAddMember_group_key_from_options :
    (getKey (groupAddMemberParams (some ["alice"]) none
        [("group", Value.arr [Value.str "admins"])]) "group").isSome = true := rfl

/-- C9 (amended): with a users list supplied, the groups argument omitted,
and the caller's extra-options bag not itself carrying a `group` key (in
particular the default empty bag), the named-option mapping binds `user` to
the supplied list and has no `group` key at all. -/
theorem groupAddMember_omits_absent_relation (users : List String)
    (options : List (String × Value)) (hg : getKey options "group" = none) :
    getKey (groupAddMemberParams (some users) none options) "user"
      = some (Value.arr (users.map Value.str))
    ∧ getKey (groupAddMemberParams (some users) none options) "group" = none := by
  constructor
  · exact getKey_setKey_self options "user" (Value.arr (users.map Value.str))
  · exact (getKey_setKey_ne options "user" "group" (Value.arr (users.map Value.str))
      (by decide)).trans hg

/-- Witness for C9 at `groupAddMember('eng', ['alice'])`. -/
theorem groupAddMember_omits_absent_relation_witness :
    getKey ([] : List (String × Value)) "group" = none
    ∧ (getKey (groupAddMemberParams (some ["alice"]) none []) "user"
        = some (Value.arr [Value.str "alice"])
      ∧ getKey (groupAddMemberParams (some ["alice"]) none []) "group" = none) :=
  ⟨rfl, groupAddMember_omits_absent_relation ["alice"] [] rfl⟩

/-- Counterexample to C3 as stated: a 200 login response that carries no
`Set-Cookie` header leaves the previously stored cookie string in place —
it is not overwritten with the (empty) join of the headers' name=value
prefixes. -/
theorem authenticate_keeps_cookie_without_header :
    ((authenticate ⟨true, "old=1", 0⟩ (AuthHttpResult.resolved 200 none)).2.cookies = "old=1")
    ∧ ("old=1" ≠ String.intercalate "; " (List.map cookieNameValue [])) := by
  exact ⟨rfl, by decide⟩

/-- C3 (amended): on every successful (HTTP 200) `authenticate` whose
response carries the `Set-Cookie` header list, the stored cookie string is
overwritten — whatever its previous value, including on re-authentication —
with the headers' name=value prefixes joined by `; `; in particular
`a=1; Path=/` and `b=2; HttpOnly` store exactly `a=1; b=2`. -/
theorem authenticate_overwrites_cookies (st : ClientState) (cs : List String) :
    (authenticate st (AuthHttpResult.resolved 200 (some cs))).2.cookies
      = String.intercalate "; " (cs.map cookieNameValue)
    ∧ (authenticate st (AuthHttpResult.resolved 200
        (some ["a=1; Path=/", "b=2; HttpOnly"]))).2.cookies = "a=1; b=2" := by
  constructor
  · simp [authenticate]
  · have h2 : (authenticate st (AuthHttpResult.resolved 200
        (some ["a=1; Path=/", "b=2; HttpOnly"]))).2.cookies
        = String.intercalate "; " (["a=1; Path=/", "b=2; HttpOnly"].map cookieNameValue) := by
      simp [authenticate]
    exact h2.trans (by decide)
